import Mathlib

/-!
Shallow embedding of the tripmind external-data aggregation layer
(backend/services/amadeus.go and the search orchestration in the request
handler), with theorems checking the natural-language specification's
claims against it.

Modelling conventions:
* Go decimal literals (hotel ratings and prices, budgets) are embedded as
  exact rationals.  The claims proved about them compare only against
  whole-number bounds (price > 0, rating between 0 and 5), which the
  sub-ulp binary64 representation error cannot cross.
* The one place where binary64 rounding is observable at the claimed
  granularity is the fallback flight price, which truncates the float
  quotient `base*multiplier/5` to an integer.  There the embedding models
  IEEE-754 double arithmetic exactly, on significand/exponent pairs
  (`F64`, `normF`, `mulF`, `div5F` below).
* Strings are Lean `String`s (Lean 4.14 strings are lists of characters;
  all catalogue data is ASCII, so Go byte indices and character indices
  coincide).
-/

set_option maxRecDepth 16000

namespace TripMind

/-- Canonical flight offer (`Flight` in amadeus.go).  Field defaults are the
Go zero values, so a record built from a subset of fields matches a Go
struct literal that omits the rest. -/
structure Flight where
  price : ℚ := 0
  airline : String := ""
  airlineCode : String := ""
  flightNumber : String := ""
  departureTime : String := ""
  arrivalTime : String := ""
  duration : String := ""
  stops : ℤ := 0
  returnDepartureTime : String := ""
  returnArrivalTime : String := ""
  returnDuration : String := ""
  returnStops : ℤ := 0
  bookingLink : String := ""
  currency : String := ""
deriving Repr, DecidableEq

/-- Canonical hotel offer (`Hotel` in amadeus.go); fields in source order so
the anonymous constructor mirrors the Go positional struct literals. -/
structure Hotel where
  name : String := ""
  hotelID : String := ""
  price : ℚ := 0
  rating : ℚ := 0
  location : String := ""
  bookingLink : String := ""
  currency : String := ""
deriving Repr, DecidableEq

/-- `parseDuration` (amadeus.go): rewrites a compact ISO-8601 duration such
as "PT5H30M" into a human form such as "5h 30m".  Direct translation of the
Go code: strip a leading "PT", cut at the first 'H' (if any) for the hour
part, then at the first following 'M' for the minute part. -/
def parseDuration (iso : String) : String :=
  if iso = "" then ""
  else
    let l := if iso.data.take 2 = ['P', 'T'] then iso.data.drop 2 else iso.data
    match l.findIdx? (· = 'H') with
    | some h =>
      let pre := l.take h
      let rest := l.drop (h + 1)
      match rest.findIdx? (· = 'M') with
      | some m => String.mk (pre ++ ['h', ' '] ++ rest.take m ++ ['m'])
      | none => String.mk (pre ++ ['h'])
    | none =>
      match l.findIdx? (· = 'M') with
      | some m => String.mk (l.take m ++ ['m'])
      | none => ""

/-- `formatDurationMin` (amadeus.go): minutes to "5h 30m" / "2h". -/
def formatDurationMin (minutes : ℕ) : String :=
  let h := minutes / 60
  let m := minutes % 60
  if m > 0 then toString h ++ "h " ++ toString m ++ "m"
  else toString h ++ "h"

def digitsToNat (l : List Char) : ℕ :=
  l.foldl (fun acc c => acc * 10 + (c.toNat - '0'.toNat)) 0

/-- Models `fmt.Sscanf(s, "%f", &x)` on the ordinary decimal forms the
marketplace provider emits (optional sign, integer digits, optional
fractional digits; trailing junk ignored): the scanned value, or 0 when no
number can be read — which both callers treat as "non-positive, discard".
Exotic float syntax (exponents, inf/nan, hex) is not modelled; the provider's
price and rating fields are plain decimals. -/
def scanFloat (s : String) : ℚ :=
  let l := s.data.dropWhile (fun c => c = ' ' || c = '\t' || c = '\n')
  let (sgn, l) : ℚ × List Char :=
    match l with
    | '-' :: t => (-1, t)
    | '+' :: t => (1, t)
    | _ => (1, l)
  let intPart := l.takeWhile Char.isDigit
  let rest := l.dropWhile Char.isDigit
  let fracPart :=
    match rest with
    | '.' :: t => t.takeWhile Char.isDigit
    | _ => []
  if intPart = [] && fracPart = [] then 0
  else sgn * ((digitsToNat intPart : ℚ) + (digitsToNat fracPart : ℚ) / 10 ^ fracPart.length)

/-- `parsePrice` (amadeus.go): scan a float out of the provider's price
string, 0 on malformed input. -/
def parsePrice (s : String) : ℚ :=
  scanFloat s

/-- `parseRating` (amadeus.go): scan the free-text star rating, default 4.0
when absent or non-positive, clamp to at most 5. -/
def parseRating (s : String) : ℚ :=
  if s = "" then 4
  else
    let r := scanFloat s
    if r ≤ 0 then 4
    else if r > 5 then 5
    else r

/-- `airlineName` (amadeus.go): full airline name from IATA code. -/
def airlineName (code : String) : String :=
  match code with
  | "TK" => "Turkish Airlines"
  | "LH" => "Lufthansa"
  | "AF" => "Air France"
  | "BA" => "British Airways"
  | "EK" => "Emirates"
  | "QR" => "Qatar Airways"
  | "PC" => "Pegasus Airlines"
  | "FR" => "Ryanair"
  | "U2" => "EasyJet"
  | "W6" => "Wizz Air"
  | "FZ" => "FlyDubai"
  | "HY" => "Uzbekistan Airways"
  | "UA" => "United Airlines"
  | "AA" => "American Airlines"
  | "DL" => "Delta Air Lines"
  | "KL" => "KLM"
  | "IB" => "Iberia"
  | "AZ" => "ITA Airways"
  | "OS" => "Austrian Airlines"
  | "LX" => "Swiss International Air Lines"
  | "SQ" => "Singapore Airlines"
  | "CX" => "Cathay Pacific"
  | "NH" => "ANA"
  | "JL" => "Japan Airlines"
  | "EY" => "Etihad Airways"
  | "SV" => "Saudi Arabian Airlines"
  | "MS" => "EgyptAir"
  | "RJ" => "Royal Jordanian"
  | "ET" => "Ethiopian Airlines"
  | "KQ" => "Kenya Airways"
  | "SA" => "South African Airways"
  | _ => if code ≠ "" then code ++ " Airlines" else "Unknown Airline"

/-- `GenerateHotelsFallback` (amadeus.go): the static per-city hotel
catalogue.  Every list is transcribed verbatim from the source — note the
"PAR" entry really has only four hotels there. -/
def cityHotels (destination : String) : Option (List Hotel) :=
  match destination with
  | "IST" => some [
      ⟨"Grand Hyatt Istanbul", "", 180, 4.7, "Beyoglu, Istanbul", "", "USD"⟩,
      ⟨"Hilton Istanbul Bosphorus", "", 165, 4.5, "Besiktas, Istanbul", "", "USD"⟩,
      ⟨"Sultan Ahmet Palace Hotel", "", 95, 4.3, "Sultanahmet, Istanbul", "", "USD"⟩,
      ⟨"Ibis Istanbul Taksim", "", 75, 4.0, "Taksim, Istanbul", "", "USD"⟩,
      ⟨"The Marmara Taksim", "", 140, 4.4, "Taksim Square, Istanbul", "", "USD"⟩]
  | "CDG" => some [
      ⟨"Hotel Le Marais", "", 220, 4.6, "Le Marais, Paris", "", "USD"⟩,
      ⟨"Pullman Paris Tour Eiffel", "", 280, 4.5, "7th Arr., Paris", "", "USD"⟩,
      ⟨"Ibis Paris Montmartre", "", 95, 4.0, "Montmartre, Paris", "", "USD"⟩,
      ⟨"Hotel des Arts Montmartre", "", 130, 4.3, "18th Arr., Paris", "", "USD"⟩,
      ⟨"Generator Paris", "", 55, 3.8, "10th Arr., Paris", "", "USD"⟩]
  | "PAR" => some [
      ⟨"Hotel Le Marais", "", 220, 4.6, "Le Marais, Paris", "", "USD"⟩,
      ⟨"Pullman Paris Tour Eiffel", "", 280, 4.5, "7th Arr., Paris", "", "USD"⟩,
      ⟨"Ibis Paris Montmartre", "", 95, 4.0, "Montmartre, Paris", "", "USD"⟩,
      ⟨"Hotel des Arts Montmartre", "", 130, 4.3, "18th Arr., Paris", "", "USD"⟩]
  | "LHR" => some [
      ⟨"Hilton London Tower Bridge", "", 180, 4.4, "Tower Bridge, London", "", "USD"⟩,
      ⟨"Premier Inn London City", "", 95, 4.1, "City of London", "", "USD"⟩,
      ⟨"The Hoxton Shoreditch", "", 165, 4.5, "Shoreditch, London", "", "USD"⟩,
      ⟨"Generator London", "", 50, 3.8, "Russell Square, London", "", "USD"⟩,
      ⟨"citizenM London Bankside", "", 145, 4.4, "Bankside, London", "", "USD"⟩]
  | "DXB" => some [
      ⟨"JW Marriott Marquis", "", 220, 4.6, "Business Bay, Dubai", "", "USD"⟩,
      ⟨"Rove Downtown", "", 95, 4.3, "Downtown Dubai", "", "USD"⟩,
      ⟨"Premier Inn Dubai", "", 65, 4.0, "Ibn Battuta, Dubai", "", "USD"⟩,
      ⟨"Atlantis The Palm", "", 380, 4.7, "Palm Jumeirah, Dubai", "", "USD"⟩,
      ⟨"Hilton Dubai Al Habtoor City", "", 160, 4.4, "Dubai Marina", "", "USD"⟩]
  | "FRA" => some [
      ⟨"Marriott Frankfurt City Center", "", 155, 4.4, "Sachsenhausen, Frankfurt", "", "USD"⟩,
      ⟨"Motel One Frankfurt-Römer", "", 89, 4.3, "Römer, Frankfurt", "", "USD"⟩,
      ⟨"Hilton Frankfurt City Centre", "", 175, 4.5, "City Centre, Frankfurt", "", "USD"⟩,
      ⟨"Generator Frankfurt", "", 45, 3.9, "Sachsenhausen, Frankfurt", "", "USD"⟩,
      ⟨"Steigenberger Frankfurter Hof", "", 280, 4.6, "Kaiserplatz, Frankfurt", "", "USD"⟩]
  | "BER" => some [
      ⟨"Hotel Adlon Kempinski", "", 320, 4.8, "Mitte, Berlin", "", "USD"⟩,
      ⟨"Radisson Blu Berlin", "", 150, 4.4, "Alexanderplatz, Berlin", "", "USD"⟩,
      ⟨"Motel One Berlin Hackescher Markt", "", 85, 4.2, "Mitte, Berlin", "", "USD"⟩,
      ⟨"Generator Berlin Mitte", "", 45, 3.9, "Mitte, Berlin", "", "USD"⟩,
      ⟨"Michelberger Hotel", "", 130, 4.5, "Friedrichshain, Berlin", "", "USD"⟩]
  | _ => none

/-- `GenerateHotelsFallback` (amadeus.go): catalogue hit, else the generic
five-entry list templated with the destination code. -/
def GenerateHotelsFallback (destination : String) : List Hotel :=
  match cityHotels destination with
  | some hotels => hotels
  | none => [
      ⟨"Grand City Hotel", "", 150, 4.5, "City Center, " ++ destination, "", "USD"⟩,
      ⟨"Business Inn", "", 95, 4.2, "Business District, " ++ destination, "", "USD"⟩,
      ⟨"Boutique Residence", "", 120, 4.4, "Arts District, " ++ destination, "", "USD"⟩,
      ⟨"Economy Suites", "", 65, 3.9, "Near Airport, " ++ destination, "", "USD"⟩,
      ⟨"Luxury Collection", "", 240, 4.7, "Historic Center, " ++ destination, "", "USD"⟩]

/-! Exact model of the IEEE-754 binary64 arithmetic in
`GenerateFlightsFallback`.  The Go code computes
`price := basePrice * priceMod; price = float64(int(price/5)*5)` in float64;
the truncating conversion makes sub-ulp rounding error observable: for the
routes with base price 100 the double product `100 * 1.15` is
`115 - 2^-46` (the rounded 53-bit significand of the literal 1.15 is
5179139571476070, slightly below 1.15, and the nearest double to
`100 * (5179139571476070/2^52) = 114.9999999999999911...` is
`8092405580431359/2^46 = 115 - 2^-46`), so `int(price/5)` is 22 and the
generated price is 110, not 115.

A positive binary64 is modelled as an exact significand/exponent pair with
all arithmetic on ℕ/ℤ (kernel-computable).  Exponent-range effects
(overflow, subnormals) are far outside the magnitudes this generator
produces and are not modelled. -/

/-- A positive binary64 value `mant * 2^exp`; normalized values keep
`2^52 <= mant < 2^53`. -/
structure F64 where
  mant : ℕ
  exp : ℤ
deriving Repr, DecidableEq

/-- Floor of log2 by structural recursion on a fuel bound (128 covers every
significand this model forms; `Nat.log2` itself is defined by well-founded
recursion, which the kernel cannot evaluate in reasonable time). -/
def log2Fuel : ℕ → ℕ → ℕ
  | 0, _ => 0
  | fuel + 1, n => if 2 ≤ n then log2Fuel fuel (n / 2) + 1 else 0

/-- `⌊log2 n⌋` for `0 < n < 2^128`. -/
def nlog2 (n : ℕ) : ℕ := log2Fuel 128 n

/-- Round `n / 2^k` to the nearest integer, ties to even. -/
def rne2 (n k : ℕ) : ℕ :=
  let q := n / 2 ^ k
  let r := n % 2 ^ k
  if 2 * r < 2 ^ k then q
  else if 2 ^ k < 2 * r then q + 1
  else if q % 2 = 0 then q else q + 1

/-- Round `n / d` (for `d > 0`) to the nearest integer, ties to even. -/
def rneDiv (n d : ℕ) : ℕ :=
  let q := n / d
  let r := n % d
  if 2 * r < d then q
  else if d < 2 * r then q + 1
  else if q % 2 = 0 then q else q + 1

/-- Round the positive value `N * 2^E` to a binary64: shift `N` to a 53-bit
significand, rounding to nearest with ties to even, renormalizing when the
rounding carries into a 54th bit (`nlog2` is the floor of log2). -/
def normF (N : ℕ) (E : ℤ) : F64 :=
  let L := nlog2 N
  if L ≤ 52 then ⟨N * 2 ^ (52 - L), E - (52 - L)⟩
  else
    let k := L - 52
    let m := rne2 N k
    if m = 2 ^ 53 then ⟨2 ^ 52, E + k + 1⟩ else ⟨m, E + k⟩

/-- The exact binary64 of a small natural number (the float64 of a route
base price, which is a whole number far below 2^53). -/
def ofNatF (n : ℕ) : F64 := normF n 0

/-- Binary64 multiplication of positive values (round to nearest, ties to
even, as IEEE-754 requires): the exact product significand is rounded back
to 53 bits. -/
def mulF (a b : F64) : F64 := normF (a.mant * b.mant) (a.exp + b.exp)

/-- Binary64 division of a positive normalized value by 5 (`price / 5` is
the only float division the generator performs): the exact quotient
`mant * 2^(52-L) / 5` (with `L` the floor of log2 of the quotient's
integer significand scale) lies in `[2^52, 2^53)` and is rounded to
nearest, ties to even. -/
def div5F (a : F64) : F64 :=
  let L := nlog2 (a.mant / 5)
  let m := rneDiv (a.mant * 2 ^ (52 - L)) 5
  if m = 2 ^ 53 then ⟨2 ^ 52, a.exp + L - 52 + 1⟩ else ⟨m, a.exp + L - 52⟩

/-- Go `int(x)` on a positive binary64: truncation toward zero, which is
the floor. -/
def floorF (a : F64) : ℤ :=
  if 0 ≤ a.exp then (a.mant : ℤ) * 2 ^ a.exp.toNat
  else ((a.mant / 2 ^ (-a.exp).toNat : ℕ) : ℤ)

/-- The binary64 value of the Go literal `1.00` (exact). -/
def lit100F : F64 := ⟨2 ^ 52, -52⟩

/-- The binary64 value of the Go literal `1.15`: significand
`round(1.15 * 2^52) = 5179139571476070`, slightly BELOW 23/20. -/
def lit115F : F64 := ⟨5179139571476070, -52⟩

/-- The binary64 value of the Go literal `1.30`: significand
`round(1.3 * 2^52) = 5854679515581645`, slightly above 13/10. -/
def lit130F : F64 := ⟨5854679515581645, -52⟩

/-- The binary64 value of the Go literal `0.65`: significand
`round(0.65 * 2^53) = 5854679515581645`, slightly above 13/20. -/
def lit065F : F64 := ⟨5854679515581645, -53⟩

/-- The binary64 value of the Go literal `0.80`: significand
`round(0.8 * 2^53) = 7205759403792794`, slightly above 4/5. -/
def lit080F : F64 := ⟨7205759403792794, -53⟩

/-- `price := basePrice * priceMod; price = float64(int(price/5)*5)`
(amadeus.go) in Go float64 arithmetic: the result is a small whole number,
exactly representable, returned as an integer. -/
def goPrice (base : ℕ) (mod : F64) : ℤ :=
  floorF (div5F (mulF (ofNatF base) mod)) * 5

/-- The static route table of `GenerateFlightsFallback` (amadeus.go):
base price (currency units) and base duration (minutes) per ordered
origin-destination key, defaulting to (350, 240). -/
def routeInfoFor (key : String) : ℕ × ℕ :=
  match key with
  | "TAS-IST" | "IST-TAS" => (280, 300)
  | "TAS-DXB" | "DXB-TAS" => (320, 210)
  | "TAS-FRA" | "FRA-TAS" => (450, 420)
  | "TAS-LHR" | "LHR-TAS" => (500, 480)
  | "TAS-CDG" | "CDG-TAS" => (480, 450)
  | "BER-PAR" | "PAR-BER" => (120, 105)
  | "BER-LHR" | "LHR-BER" => (100, 100)
  | "IST-DXB" | "DXB-IST" => (250, 240)
  | "LHR-JFK" | "JFK-LHR" => (450, 480)
  | "LHR-CDG" | "CDG-LHR" => (80, 75)
  | "FRA-IST" | "IST-FRA" => (150, 165)
  | _ => (350, 240)

/-- The five airline profiles of `GenerateFlightsFallback`, in source order:
name, price multiplier (as the exact binary64 value of the Go literal),
stop count. -/
def airlineOptions : List (String × F64 × ℕ) :=
  [("Turkish Airlines", lit100F, 0),
   ("Lufthansa", lit115F, 0),
   ("Emirates", lit130F, 0),
   ("Wizz Air", lit065F, 1),
   ("FlyDubai", lit080F, 1)]

/-- A Gregorian calendar date as Go's `time` package carries it. -/
structure GoDate where
  year : ℤ
  month : ℕ
  day : ℕ
deriving Repr, DecidableEq

def isLeap (y : ℤ) : Bool :=
  y % 4 = 0 && (y % 100 ≠ 0 || y % 400 = 0)

def daysInMonth (y : ℤ) (m : ℕ) : ℕ :=
  match m with
  | 1 => 31
  | 2 => if isLeap y then 29 else 28
  | 3 => 31
  | 4 => 30
  | 5 => 31
  | 6 => 30
  | 7 => 31
  | 8 => 31
  | 9 => 30
  | 10 => 31
  | 11 => 30
  | 12 => 31
  | _ => 31

def digitVal (c : Char) : ℕ := c.toNat - '0'.toNat

/-- Models Go `time.Parse("2006-01-02", s)`: a strict `YYYY-MM-DD` with the
month and day-of-month range-checked.  The generator discards the parse
error, leaving the zero `time.Time` (January 1 of year 1), so that is the
value returned for a malformed date. -/
def parseGoDate (s : String) : GoDate :=
  match s.data with
  | [y1, y2, y3, y4, '-', m1, m2, '-', d1, d2] =>
    if (y1.isDigit && y2.isDigit && y3.isDigit && y4.isDigit &&
        m1.isDigit && m2.isDigit && d1.isDigit && d2.isDigit) then
      let y : ℤ := (digitsToNat [y1, y2, y3, y4] : ℤ)
      let m := digitsToNat [m1, m2]
      let d := digitsToNat [d1, d2]
      if 1 ≤ m && m ≤ 12 && 1 ≤ d && d ≤ daysInMonth y m then ⟨y, m, d⟩
      else ⟨1, 1, 1⟩
    else ⟨1, 1, 1⟩
  | _ => ⟨1, 1, 1⟩

/-- Whether `time.Parse("2006-01-02", s)` succeeds. -/
def isValidDate (s : String) : Bool :=
  match s.data with
  | [y1, y2, y3, y4, '-', m1, m2, '-', d1, d2] =>
    (y1.isDigit && y2.isDigit && y3.isDigit && y4.isDigit &&
     m1.isDigit && m2.isDigit && d1.isDigit && d2.isDigit) &&
    (let y : ℤ := (digitsToNat [y1, y2, y3, y4] : ℤ)
     let m := digitsToNat [m1, m2]
     let d := digitsToNat [d1, d2]
     1 ≤ m && m ≤ 12 && 1 ≤ d && d ≤ daysInMonth y m)
  | _ => false

/-- Strict calendar order on dates (`retDate.After(depDate)` in Go). -/
def dateAfter (a b : GoDate) : Bool :=
  b.year < a.year ||
  (b.year = a.year && (b.month < a.month || (b.month = a.month && b.day < a.day)))

def nextDay (g : GoDate) : GoDate :=
  if g.day < daysInMonth g.year g.month then ⟨g.year, g.month, g.day + 1⟩
  else if g.month < 12 then ⟨g.year, g.month + 1, 1⟩
  else ⟨g.year + 1, 1, 1⟩

def addDays (g : GoDate) : ℕ → GoDate
  | 0 => g
  | n + 1 => addDays (nextDay g) n

/-- A wall-clock instant in UTC at minute precision (all times the
generator builds have zero seconds and nanoseconds). -/
structure GoDateTime where
  date : GoDate
  hour : ℕ
  minute : ℕ
deriving Repr, DecidableEq

/-- Go `t.Add(m * time.Minute)` for a non-negative number of minutes. -/
def addMinutes (t : GoDateTime) (mins : ℕ) : GoDateTime :=
  let total := t.hour * 60 + t.minute + mins
  ⟨addDays t.date (total / 1440), total % 1440 / 60, total % 1440 % 60⟩

def pad2 (n : ℕ) : String :=
  if n < 10 then "0" ++ toString n else toString n

def pad4 (n : ℤ) : String :=
  let s := toString n.toNat
  if n.toNat < 10 then "000" ++ s
  else if n.toNat < 100 then "00" ++ s
  else if n.toNat < 1000 then "0" ++ s
  else s

/-- Go `t.Format(time.RFC3339)` for a UTC instant with zero seconds. -/
def formatRFC3339 (t : GoDateTime) : String :=
  pad4 t.date.year ++ "-" ++ pad2 t.date.month ++ "-" ++ pad2 t.date.day ++ "T" ++
    pad2 t.hour ++ ":" ++ pad2 t.minute ++ ":00Z"

/-- One loop iteration of `GenerateFlightsFallback` (amadeus.go): profile
index `i` with airline profile `opt` over route data `info` and the parsed
travel dates. -/
def fallbackFlightAt (info : ℕ × ℕ) (depDate retDate : GoDate) (i : ℕ)
    (opt : String × F64 × ℕ) : Flight :=
  let price : ℚ := ((goPrice info.1 opt.2.1 : ℤ) : ℚ)
  let dur := if opt.2.2 > 0 then info.2 + 90 else info.2
  let depHour := 6 + i * 3
  let retHour := 8 + i * 2
  let depTime : GoDateTime := ⟨depDate, depHour, 0⟩
  let arrTime := addMinutes depTime dur
  let retDepTime : GoDateTime := ⟨retDate, retHour, 0⟩
  let retArrTime := addMinutes retDepTime dur
  { price := price
    airline := opt.1
    departureTime := formatRFC3339 depTime
    arrivalTime := formatRFC3339 arrTime
    duration := formatDurationMin dur
    stops := (opt.2.2 : ℤ)
    returnDepartureTime := formatRFC3339 retDepTime
    returnArrivalTime := formatRFC3339 retArrTime
    returnDuration := formatDurationMin dur
    returnStops := (opt.2.2 : ℤ) }

/-- `GenerateFlightsFallback` (amadeus.go): deterministic synthetic flight
offers from the static route table and the five airline profiles. -/
def GenerateFlightsFallback (origin destination departureDate returnDate : String) :
    List Flight :=
  let info := routeInfoFor (origin ++ "-" ++ destination)
  let depDate := parseGoDate departureDate
  let retDate := parseGoDate returnDate
  airlineOptions.enum.map fun p => fallbackFlightAt info depDate retDate p.1 p.2

/-- Round a rational to the nearest integer, ties to even: the value a Go
`%.0f` format of an exactly-representable float prints. -/
def roundHalfEven (q : ℚ) : ℤ :=
  let f := q.floor
  let fr := q - f
  if fr < 1 / 2 then f
  else if 1 / 2 < fr then f + 1
  else if f % 2 = 0 then f else f + 1

/-- Go `fmt.Sprintf("%.0f", x)` for the non-negative amounts this layer
formats. -/
def formatF0 (q : ℚ) : String :=
  toString (roundHalfEven q)

/-- Go `fmt.Sprintf("%.1f", x)` for the non-negative ratings this layer
formats. -/
def formatF1 (q : ℚ) : String :=
  let n := (roundHalfEven (q * 10)).toNat
  toString (n / 10) ++ "." ++ toString (n % 10)

/-- `FallbackRecommendation` (amadeus.go): the deterministic cheapest
combination heuristic used when the AI provider fails.  Note the guard is
`len(flights) == 0 || len(hotels) == 0` — the fixed message is returned when
EITHER list is empty. -/
def FallbackRecommendation (budget : ℚ) (flights : List Flight) (hotels : List Hotel)
    (numNights : ℤ) : String :=
  match flights, hotels with
  | [], _ => "Unable to provide recommendations at this time."
  | _, [] => "Unable to provide recommendations at this time."
  | f0 :: fs, h0 :: hs =>
    let cheapestFlight := (f0 :: fs).foldl (fun acc f => if f.price < acc.price then f else acc) f0
    let bestValueHotel := (h0 :: hs).foldl (fun acc h => if h.price < acc.price then h else acc) h0
    let total := cheapestFlight.price + bestValueHotel.price * (numNights : ℚ)
    let withinBudget :=
      if total ≤ budget then
        " This combination fits your $" ++ formatF0 budget ++ " budget."
      else
        " Note: This exceeds your $" ++ formatF0 budget ++ " budget by $" ++
          formatF0 (total - budget) ++ "."
    "Best value picks: " ++ cheapestFlight.airline ++ " at $" ++ formatF0 cheapestFlight.price ++
      " (" ++ formatF0 (cheapestFlight.stops : ℚ) ++ " stops) and " ++ bestValueHotel.name ++
      " at $" ++ formatF0 bestValueHotel.price ++ "/night (★ " ++ formatF1 bestValueHotel.rating ++
      "). Estimated total: $" ++ formatF0 total ++ " for flight + " ++ toString numNights ++
      " nights." ++ withinBudget

/-! Wire-format structures for the provider's flight-offers response
(amadeus.go `amadeusFlightOffer` and friends), after JSON decoding. -/

structure AmadeusSegment where
  depIata : String := ""
  depAt : String := ""
  arrIata : String := ""
  arrAt : String := ""
  carrierCode : String := ""
  number : String := ""
deriving Repr, DecidableEq

structure AmadeusItinerary where
  duration : String := ""
  segments : List AmadeusSegment := []
deriving Repr, DecidableEq

structure AmadeusPrice where
  grandTotal : String := ""
  currency : String := ""
deriving Repr, DecidableEq

structure AmadeusFlightOffer where
  price : AmadeusPrice := {}
  itineraries : List AmadeusItinerary := []
  validatingAirlineCodes : List String := []
deriving Repr, DecidableEq

/-- The body of the `parseFlightOffers` loop (amadeus.go) for an offer that
passed both guards: outbound leg from `itineraries[0]`, return leg from
`itineraries[1]` when present, stop count `max(0, len(segments)-1)`, airline
code from the first outbound segment's carrier falling back to the first
validating-airline code. -/
def mkFlight (offer : AmadeusFlightOffer) : Flight :=
  let outbound := offer.itineraries.headD ⟨"", []⟩
  let returnIt? := (offer.itineraries.drop 1).head?
  let airlineCode :=
    match outbound.segments with
    | seg :: _ => seg.carrierCode
    | [] =>
      match offer.validatingAirlineCodes with
      | c :: _ => c
      | [] => ""
  let f : Flight :=
    { price := parsePrice offer.price.grandTotal
      airline := airlineName airlineCode
      airlineCode := airlineCode
      currency := offer.price.currency
      stops := max 0 ((outbound.segments.length : ℤ) - 1)
      duration := parseDuration outbound.duration }
  let f :=
    match outbound.segments with
    | [] => f
    | seg :: segs =>
      { f with
        departureTime := seg.depAt
        arrivalTime := ((seg :: segs).getLastD seg).arrAt
        flightNumber := airlineCode ++ seg.number }
  match returnIt? with
  | none => f
  | some rit =>
    let f :=
      { f with
        returnStops := max 0 ((rit.segments.length : ℤ) - 1)
        returnDuration := parseDuration rit.duration }
    match rit.segments with
    | [] => f
    | seg :: segs =>
      { f with
        returnDepartureTime := seg.depAt
        returnArrivalTime := ((seg :: segs).getLastD seg).arrAt }

/-- `parseFlightOffers` (amadeus.go), after JSON decoding: the loop skips an
offer with zero itineraries or a non-positive parsed price and otherwise
appends the converted flight. -/
def parseFlightOffers : List AmadeusFlightOffer → List Flight
  | [] => []
  | offer :: rest =>
    if offer.itineraries.length < 1 then parseFlightOffers rest
    else if parsePrice offer.price.grandTotal ≤ 0 then parseFlightOffers rest
    else mkFlight offer :: parseFlightOffers rest

/-! Credential session (amadeus.go `refreshToken` / `getToken`).  Time is
modelled as an integer count of seconds; the Go code compares instants only
through `time.Now().After(expiry)` and stores `now + (expiresIn-30)s`, both
exact at second granularity. -/

/-- The mutable token/expiry pair guarded by the client's lock. -/
structure TokenState where
  accessToken : String
  tokenExpiry : ℤ
deriving Repr, DecidableEq

/-- `refreshToken` (amadeus.go) on a successful exchange at instant `now`
whose response carries `expires_in = expiresIn` and token `tok`:
`tokenExpiry = now + (expiresIn - 30) seconds`. -/
def refreshToken (now expiresIn : ℤ) (tok : String) : TokenState :=
  ⟨tok, now + (expiresIn - 30)⟩

/-- The refresh condition of `getToken` (amadeus.go):
`expired := time.Now().After(c.tokenExpiry)` (strict) or the cached token is
the empty string. -/
def needsRefresh (s : TokenState) (now : ℤ) : Bool :=
  decide (s.tokenExpiry < now) || s.accessToken == ""

/-- `getToken` (amadeus.go) in a single-request (uninterleaved) run:
`exchange = none` models the provider rejecting the refresh (AuthError),
`some (expiresIn, tok)` a successful exchange. -/
def getToken (s : TokenState) (now : ℤ) (exchange : Option (ℤ × String)) :
    Option (String × TokenState) :=
  if needsRefresh s now then
    match exchange with
    | none => none
    | some (expiresIn, tok) => some (tok, refreshToken now expiresIn tok)
  else some (s.accessToken, s)

/-! Orchestrator: the data-aggregation core of `SearchHandler`
(handlers/search, lines 73-134).  The network is abstracted as an oracle:
whether the Amadeus client was initialised, and what each live call would
return if issued.  The AI-recommendation, persistence and HTTP layers are
excluded collaborators and are not modelled. -/

/-- Outcome of a live marketplace call, were it issued: `failure` is a
non-nil error, `success` the decoded offer list. -/
inductive FetchResult (α : Type) where
  | failure : FetchResult α
  | success : List α → FetchResult α
deriving Repr, DecidableEq

/-- The request-scoped environment `SearchHandler` reads: `clientPresent`
is `services.GetAmadeusClient() != nil`, and the two fetch oracles are what
`SearchFlights` / `SearchHotels` would return if called. -/
structure SearchEnv where
  clientPresent : Bool
  flightFetch : FetchResult Flight
  hotelFetch : FetchResult Hotel
deriving Repr, DecidableEq

/-- A live fetch "resolved live": no error and a non-empty list. -/
def FetchResult.liveOk {α : Type} : FetchResult α → Bool
  | .failure => false
  | .success l => !l.isEmpty

/-- The aggregate the handler builds before the recommendation step.
`hotelCallMade` is ghost instrumentation recording whether the code path
reached `SearchHotels` at all. -/
structure SearchOutcome where
  flights : List Flight
  hotels : List Hotel
  source : String
  hotelCallMade : Bool
deriving Repr, DecidableEq

/-- Lines 73-134 of `SearchHandler`: flights from the live call unless the
client is absent, the call errors, or it returns zero offers (then the
synthesizer, marking fallback); hotels live only when the client is present
AND flights resolved live, with the same failure/empty policy; in the other
branch `hotels` is still nil so the synthesizer always runs there; the
provenance tag is "live" only when no fallback was recorded. -/
def SearchHandler (env : SearchEnv) (origin destination departureDate returnDate : String) :
    SearchOutcome :=
  let flightsFallback :=
    GenerateFlightsFallback origin destination departureDate returnDate
  let (flights, isFallback) :=
    if env.clientPresent then
      match env.flightFetch with
      | .failure => (flightsFallback, true)
      | .success live => if live.isEmpty then (flightsFallback, true) else (live, false)
    else (flightsFallback, true)
  let (hotels, isFallback, hotelCallMade) :=
    if env.clientPresent && !isFallback then
      match env.hotelFetch with
      | .failure => (GenerateHotelsFallback destination, true, true)
      | .success live =>
        if live.isEmpty then (GenerateHotelsFallback destination, true, true)
        else (live, isFallback, true)
    else (GenerateHotelsFallback destination, true, false)
  { flights := flights
    hotels := hotels
    source := if isFallback then "estimated" else "live"
    hotelCallMade := hotelCallMade }

/-! Spec-side definitions: these follow the specification's words, to be
compared with the source-translated definitions above. -/

/-- The spec's price rule, in exact decimal arithmetic: "price = base price
times multiplier, rounded down to the nearest 5 currency units". -/
def floorTo5 (q : ℚ) : ℚ :=
  ((⌊q / 5⌋ * 5 : ℤ) : ℚ)

/-- The spec's five profile multipliers as exact decimals, in source order. -/
def specMultipliers : List ℚ :=
  [1, 23 / 20, 13 / 10, 13 / 20, 4 / 5]

/-- The five fallback prices the generator computes for a base price, in
profile order (float64-faithful), as integers. -/
def priceVec (base : ℕ) : List ℤ :=
  [goPrice base lit100F, goPrice base lit115F, goPrice base lit130F,
   goPrice base lit065F, goPrice base lit080F]

/-- The five prices the spec's exact-decimal rule predicts for a base
price, in profile order. -/
def specPriceVec (base : ℚ) : List ℚ :=
  specMultipliers.map fun m => floorTo5 (base * m)

/-- Every value the static route table can yield, the default included. -/
def routeValues : List (ℕ × ℕ) :=
  [(280, 300), (320, 210), (450, 420), (500, 480), (480, 450), (120, 105),
   (100, 100), (250, 240), (450, 480), (80, 75), (150, 165), (350, 240)]

/-- Whether `pat` occurs at the start of `s`, character for character. -/
def startsWithSeq : List Char → List Char → Bool
  | [], _ => true
  | _ :: _, [] => false
  | a :: as, b :: bs => a == b && startsWithSeq as bs

/-- Whether `pat` occurs anywhere inside `s`, character for character. -/
def containsSeq (pat : List Char) : List Char → Bool
  | [] => pat.isEmpty
  | c :: rest => startsWithSeq pat (c :: rest) || containsSeq pat rest

/-- The flight list of the spec's recommendation-heuristic scenario:
prices 500 and 300, all other fields at their zero values. -/
def scenarioFlights : List Flight :=
  [{ price := 500 }, { price := 300 }]

/-- The hotel list of the spec's recommendation-heuristic scenario:
(price 100, rating 4.0) and (price 80, rating 3.5). -/
def scenarioHotels : List Hotel :=
  [{ price := 100, rating := 4.0 }, { price := 80, rating := 3.5 }]

/-- The fixed failure message of `FallbackRecommendation`. -/
def unableMessage : String :=
  "Unable to provide recommendations at this time."

/-! Helper lemmas shared by the claim theorems. -/

theorem fallbackRecommendation_head (b : ℚ) (f : Flight) (fs : List Flight)
    (h : Hotel) (hs : List Hotel) (n : ℤ) :
    (FallbackRecommendation b (f :: fs) (h :: hs) n).data.head? = some 'B' := rfl

theorem fallbackRecommendation_ne_unable (b : ℚ) {flights : List Flight}
    {hotels : List Hotel} (n : ℤ) (hf : flights ≠ []) (hh : hotels ≠ []) :
    FallbackRecommendation b flights hotels n ≠ unableMessage := by
  match flights, hotels with
  | [], _ => exact absurd rfl hf
  | _ :: _, [] => exact absurd rfl hh
  | f :: fs, h :: hs =>
    intro hEq
    have hhead := fallbackRecommendation_head b f fs h hs n
    rw [hEq] at hhead
    exact absurd hhead (by decide)

theorem cityHotels_ne_nil (d : String) (hs : List Hotel)
    (h : cityHotels d = some hs) : hs ≠ [] := by
  unfold cityHotels at h
  split at h <;> first
    | (injection h with h2; subst h2; simp)
    | simp at h

theorem generateHotelsFallback_ne_nil (d : String) :
    GenerateHotelsFallback d ≠ [] := by
  unfold GenerateHotelsFallback
  split
  · next hs heq => exact cityHotels_ne_nil d hs heq
  · simp

theorem generateFlightsFallback_length (o d dd rd : String) :
    (GenerateFlightsFallback o d dd rd).length = 5 := rfl

theorem generateFlightsFallback_ne_nil (o d dd rd : String) :
    GenerateFlightsFallback o d dd rd ≠ [] := by
  intro h
  have := congrArg List.length h
  rw [generateFlightsFallback_length] at this
  simp at this

theorem routeInfoFor_mem (key : String) : routeInfoFor key ∈ routeValues := by
  unfold routeInfoFor
  split <;> decide

/-- The spec's exact-decimal price rule in integer form, one entry per
profile: `⌊b*(p/q)/5⌋*5 = b*p/(q*5)*5` with `/` the floor division of ℤ. -/
def specPriceInt (b : ℕ) : List ℤ :=
  [(b : ℤ) / 5 * 5, (b : ℤ) * 23 / 100 * 5, (b : ℤ) * 13 / 50 * 5,
   (b : ℤ) * 13 / 100 * 5, (b : ℤ) * 4 / 25 * 5]

theorem floorTo5_natMul (b p q : ℕ) (hq : q ≠ 0) :
    floorTo5 ((b : ℚ) * ((p : ℚ) / (q : ℚ))) =
      ((((b * p : ℕ) : ℤ) / ((q * 5 : ℕ) : ℤ) * 5 : ℤ) : ℚ) := by
  unfold floorTo5
  have hq0 : (q : ℚ) ≠ 0 := Nat.cast_ne_zero.2 hq
  have hcast : ((b : ℚ) * ((p : ℚ) / (q : ℚ))) / 5 =
      (((b * p : ℕ) : ℤ) : ℚ) / (((q * 5 : ℕ) : ℕ) : ℚ) := by
    push_cast
    rw [mul_div_assoc, div_div, mul_div_assoc]
  rw [hcast, Rat.floor_intCast_div_natCast]

theorem specPriceVec_natCast (b : ℕ) :
    specPriceVec (b : ℚ) = (specPriceInt b).map (fun z : ℤ => (z : ℚ)) := by
  have h0 := floorTo5_natMul b 1 1 (by norm_num)
  have h1 := floorTo5_natMul b 23 20 (by norm_num)
  have h2 := floorTo5_natMul b 13 10 (by norm_num)
  have h3 := floorTo5_natMul b 13 20 (by norm_num)
  have h4 := floorTo5_natMul b 4 5 (by norm_num)
  norm_num at h0 h1 h2 h3 h4
  simp only [specPriceVec, specMultipliers, specPriceInt, List.map]
  norm_num [h0, h1, h2, h3, h4]

set_option maxHeartbeats 1000000 in
theorem priceVec_crunch (info : ℕ × ℕ) (hmem : info ∈ routeValues) :
    priceVec info.1 =
      (if info.1 = 100 then [100, 110, 130, 65, 80] else specPriceInt info.1)
    ∧ (priceVec info.1).all (fun z => decide (0 < z)) = true := by
  fin_cases hmem <;> refine ⟨?_, ?_⟩ <;> with_unfolding_all decide

theorem searchHandler_flights_ne_nil (cp : Bool) (ff : FetchResult Flight)
    (hf : FetchResult Hotel) (o d dd rd : String) :
    (SearchHandler ⟨cp, ff, hf⟩ o d dd rd).flights ≠ [] := by
  cases cp <;> rcases ff with _ | (_ | ⟨f, fl⟩) <;> rcases hf with _ | (_ | ⟨h, hl⟩) <;>
    simp only [SearchHandler] <;>
    first
      | exact generateFlightsFallback_ne_nil _ _ _ _
      | simp

theorem searchHandler_hotels_ne_nil (cp : Bool) (ff : FetchResult Flight)
    (hf : FetchResult Hotel) (o d dd rd : String) :
    (SearchHandler ⟨cp, ff, hf⟩ o d dd rd).hotels ≠ [] := by
  cases cp <;> rcases ff with _ | (_ | ⟨f, fl⟩) <;> rcases hf with _ | (_ | ⟨h, hl⟩) <;>
    simp only [SearchHandler] <;>
    first
      | exact generateHotelsFallback_ne_nil _
      | simp

/-! The claim theorems. -/

/-- Claim C1 (evidence for the code bug): `GenerateHotelsFallback` does NOT
return exactly 5 offers for every destination — the "PAR" catalogue entry
(a duplicate of the CDG Paris list that lost its fifth hotel) has only four,
so the spec's "exactly 5 offers for all destinations" fails at "PAR". -/
theorem claim1_hotels_par_four : (GenerateHotelsFallback "PAR").length = 4 := by
  with_unfolding_all decide

/-- Claim C2, amended: `FallbackRecommendation` returns the fixed "unable to
provide recommendations" message if and only if AT LEAST ONE of the two
input lists is empty (the Go guard is `len(flights) == 0 || len(hotels) ==
0`), not only when both are. -/
theorem claim2_message_iff_either_empty (budget : ℚ) (flights : List Flight)
    (hotels : List Hotel) (numNights : ℤ) :
    FallbackRecommendation budget flights hotels numNights = unableMessage ↔
      (flights = [] ∨ hotels = []) := by
  constructor
  · intro h
    by_contra hc
    push_neg at hc
    exact fallbackRecommendation_ne_unable budget numNights hc.1 hc.2 h
  · rintro (rfl | rfl)
    · cases hotels <;> rfl
    · cases flights <;> rfl

/-- Claim C2, counterexample to the claim as stated: with a non-empty flight
list and an empty hotel list the code still returns the fixed message,
though the claim says the message appears only when BOTH lists are empty. -/
theorem claim2_counterexample :
    FallbackRecommendation 700 [{ price := 300 }] [] 3 = unableMessage
    ∧ ([{ price := 300 }] : List Flight) ≠ [] :=
  ⟨rfl, by simp⟩

/-- Claim C3: the provenance tag of a search outcome is "live" exactly when
the marketplace client is present and both the flight fetch and the hotel
fetch resolved live (no error, non-empty); in every other case it is
"estimated". -/
theorem claim3_provenance (cp : Bool) (ff : FetchResult Flight) (hf : FetchResult Hotel)
    (o d dd rd : String) :
    ((SearchHandler ⟨cp, ff, hf⟩ o d dd rd).source = "live" ↔
      (cp = true ∧ ff.liveOk = true ∧ hf.liveOk = true))
    ∧ ((SearchHandler ⟨cp, ff, hf⟩ o d dd rd).source = "live" ∨
       (SearchHandler ⟨cp, ff, hf⟩ o d dd rd).source = "estimated") := by
  have hne : ("estimated" : String) ≠ "live" := by decide
  cases cp <;> rcases ff with _ | (_ | ⟨f, fl⟩) <;> rcases hf with _ | (_ | ⟨h, hl⟩) <;>
    simp [SearchHandler, FetchResult.liveOk, hne]

/-- Claim C4, amended: on the spec's scenario (flights priced 500 and 300,
hotels (100, 4.0) and (80, 3.5), 3 nights, budget 700) the heuristic picks
the 300 flight and the 80 hotel, totals 540, and states that the
combination fits the 700 budget — but it does NOT state the amount to
spare. -/
theorem claim4_scenario_sentence :
    FallbackRecommendation 700 scenarioFlights scenarioHotels 3 =
      "Best value picks:  at $300 (0 stops) and  at $80/night (★ 3.5). " ++
        "Estimated total: $540 for flight + 3 nights. " ++
        "This combination fits your $700 budget." := by
  with_unfolding_all decide

/-- Claim C4, counterexample to the claim as stated: the produced sentence
nowhere contains "160", so it cannot state that the budget is satisfied
"with $160 to spare". -/
theorem claim4_counterexample :
    containsSeq "160".data (FallbackRecommendation 700 scenarioFlights scenarioHotels 3).data
      = false := by
  with_unfolding_all decide

/-- Claim C5: the duration formatter maps "PT5H30M" to "5h 30m", "PT2H" to
"2h", "PT45M" to "45m" and the empty string to the empty string (a part
absent from the compact form — which is how a zero component is written
there — is omitted from the output). -/
theorem claim5_duration_examples :
    parseDuration "PT5H30M" = "5h 30m" ∧ parseDuration "PT2H" = "2h"
    ∧ parseDuration "PT45M" = "45m" ∧ parseDuration "" = "" := by
  refine ⟨?_, ?_, ?_, ?_⟩ <;> with_unfolding_all decide

/-- Claim C6: a refresh at instant `t` stores expiry `t + expires_in - 30`
seconds; `getToken` refreshes exactly when the cached token is absent or
the provider-reported expiry (`issued_at + expires_in`) is less than 30
seconds away — in particular a token whose provider-reported expiry is
`now + 29` triggers a refresh and one with `now + 31` does not. -/
theorem claim6_token_margin (now issuedAt expiresIn : ℤ) (tok : String) (s : TokenState) :
    (refreshToken issuedAt expiresIn tok).tokenExpiry = issuedAt + expiresIn - 30
    ∧ (needsRefresh s now = true ↔ (s.accessToken = "" ∨ s.tokenExpiry < now))
    ∧ (needsRefresh (refreshToken issuedAt expiresIn tok) now = true ↔
        (tok = "" ∨ issuedAt + expiresIn - now < 30))
    ∧ needsRefresh ⟨"tok", (now + 29) - 30⟩ now = true
    ∧ needsRefresh ⟨"tok", (now + 31) - 30⟩ now = false
    ∧ getToken ⟨"tok", (now + 29) - 30⟩ now none = none
    ∧ getToken ⟨"tok", (now + 29) - 30⟩ now (some (1799, "fresh")) =
        some ("fresh", refreshToken now 1799 "fresh")
    ∧ (∀ exchange, getToken ⟨"tok", (now + 31) - 30⟩ now exchange =
        some ("tok", ⟨"tok", (now + 31) - 30⟩)) := by
  have h29 : (now + 29) - 30 < now := by omega
  have h31 : ¬((now + 31) - 30 < now) := by omega
  refine ⟨by simp [refreshToken]; omega, ?_, ?_, by simp [needsRefresh, h29],
    by simp [needsRefresh, h31], by simp [getToken, needsRefresh, h29],
    by simp [getToken, needsRefresh, h29], fun exchange => by simp [getToken, needsRefresh, h31]⟩
  · simp only [needsRefresh, Bool.or_eq_true, decide_eq_true_eq, beq_iff_eq]
    exact or_comm
  · simp only [needsRefresh, refreshToken, Bool.or_eq_true, decide_eq_true_eq, beq_iff_eq]
    constructor
    · rintro (h | h)
      · exact Or.inr (by omega)
      · exact Or.inl h
    · rintro (h | h)
      · exact Or.inr h
      · exact Or.inl (by omega)

/-- Claim C7: whenever the flight leg fell back (client absent, call failed,
or empty result), the hotel leg never attempts the live call: the outcome's
hotels are exactly `GenerateHotelsFallback destination`, and the whole
outcome is independent of what the live hotel fetch would have returned. -/
theorem claim7_hotels_skip_live (cp : Bool) (ff : FetchResult Flight)
    (hf hfAlt : FetchResult Hotel) (o d dd rd : String)
    (hfall : ¬(cp = true ∧ ff.liveOk = true)) :
    (SearchHandler ⟨cp, ff, hf⟩ o d dd rd).hotels = GenerateHotelsFallback d
    ∧ (SearchHandler ⟨cp, ff, hf⟩ o d dd rd).hotelCallMade = false
    ∧ SearchHandler ⟨cp, ff, hf⟩ o d dd rd = SearchHandler ⟨cp, ff, hfAlt⟩ o d dd rd := by
  cases cp <;> rcases ff with _ | (_ | ⟨f, fl⟩) <;>
    simp [SearchHandler, FetchResult.liveOk] at hfall ⊢

/-- Claim C7 witness at a concrete fallen-back environment. -/
theorem claim7_witness :
    (SearchHandler ⟨false, .failure, .success []⟩ "TAS" "IST" "2025-06-01" "2025-06-08").hotels =
        GenerateHotelsFallback "IST"
    ∧ (SearchHandler ⟨false, .failure, .success []⟩ "TAS" "IST" "2025-06-01"
        "2025-06-08").hotelCallMade = false
    ∧ SearchHandler ⟨false, .failure, .success []⟩ "TAS" "IST" "2025-06-01" "2025-06-08" =
        SearchHandler ⟨false, .failure, .failure⟩ "TAS" "IST" "2025-06-01" "2025-06-08" :=
  claim7_hotels_skip_live false .failure (.success []) .failure "TAS" "IST" "2025-06-01"
    "2025-06-08" (by simp [FetchResult.liveOk])

/-- Claim C8, amended: for every valid pair of dates with the return after
the departure, `GenerateFlightsFallback` returns exactly 5 offers with
positive prices; the price vector follows the spec's exact-decimal rule
(`floorTo5 (base * multiplier)`, `specPriceVec`) for every route EXCEPT the
base-price-100 routes (BER-LHR and LHR-BER), where float64 arithmetic makes
the 1.15-multiplier offer 110 instead of 115; durations are the route's base
duration, plus 90 minutes for the two one-stop profiles; and the generator
is a pure function (identical calls give identical output). -/
theorem claim8_flights_fallback (origin destination departureDate returnDate : String)
    (hdep : isValidDate departureDate = true)
    (hret : isValidDate returnDate = true)
    (hafter : dateAfter (parseGoDate returnDate) (parseGoDate departureDate) = true) :
    (GenerateFlightsFallback origin destination departureDate returnDate).length = 5
    ∧ (∀ f ∈ GenerateFlightsFallback origin destination departureDate returnDate, 0 < f.price)
    ∧ (GenerateFlightsFallback origin destination departureDate returnDate).map Flight.price =
        (if (routeInfoFor (origin ++ "-" ++ destination)).1 = 100
         then [100, 110, 130, 65, 80]
         else specPriceVec ((routeInfoFor (origin ++ "-" ++ destination)).1 : ℚ))
    ∧ (GenerateFlightsFallback origin destination departureDate returnDate).map Flight.duration =
        [formatDurationMin (routeInfoFor (origin ++ "-" ++ destination)).2,
         formatDurationMin (routeInfoFor (origin ++ "-" ++ destination)).2,
         formatDurationMin (routeInfoFor (origin ++ "-" ++ destination)).2,
         formatDurationMin ((routeInfoFor (origin ++ "-" ++ destination)).2 + 90),
         formatDurationMin ((routeInfoFor (origin ++ "-" ++ destination)).2 + 90)]
    ∧ (GenerateFlightsFallback origin destination departureDate returnDate).map Flight.stops =
        [0, 0, 0, 1, 1]
    ∧ GenerateFlightsFallback origin destination departureDate returnDate =
        GenerateFlightsFallback origin destination departureDate returnDate := by
  obtain ⟨hp, hall⟩ := priceVec_crunch (routeInfoFor (origin ++ "-" ++ destination))
    (routeInfoFor_mem (origin ++ "-" ++ destination))
  have hmap : (GenerateFlightsFallback origin destination departureDate returnDate).map
      Flight.price =
      (priceVec (routeInfoFor (origin ++ "-" ++ destination)).1).map (fun z : ℤ => (z : ℚ)) := rfl
  refine ⟨rfl, ?_, ?_, rfl, rfl, rfl⟩
  · intro f hf
    have hmem : f.price ∈ (GenerateFlightsFallback origin destination departureDate
        returnDate).map Flight.price := List.mem_map_of_mem _ hf
    rw [hmap] at hmem
    have hpos : ∀ w ∈ priceVec (routeInfoFor (origin ++ "-" ++ destination)).1, (0 : ℤ) < w :=
      fun w hw => of_decide_eq_true (List.all_eq_true.mp hall w hw)
    obtain ⟨w, hw, hwc⟩ := List.mem_map.mp hmem
    rw [← hwc]
    exact_mod_cast hpos w hw
  · rw [hmap, hp]
    by_cases hb : (routeInfoFor (origin ++ "-" ++ destination)).1 = 100
    · simp [hb]
    · simp [hb, specPriceVec_natCast]

/-- Claim C8 witness at a concrete valid input. -/
theorem claim8_witness :
    (GenerateFlightsFallback "TAS" "IST" "2025-06-01" "2025-06-08").length = 5 :=
  (claim8_flights_fallback "TAS" "IST" "2025-06-01" "2025-06-08"
    (by with_unfolding_all decide) (by with_unfolding_all decide)
    (by with_unfolding_all decide)).1

/-- Claim C8, counterexample to the claim as stated: on the BER-LHR route
(base price 100) the Lufthansa offer (multiplier 1.15) is priced 110 by the
code, while the claimed exact rule "base times multiplier rounded down to
the nearest 5" gives 115: in float64, `100 * 1.15 = 115 - 2^-46`, and the
truncating `int(price/5)` yields 22, not 23. -/
theorem claim8_counterexample :
    ((GenerateFlightsFallback "BER" "LHR" "2025-06-01" "2025-06-08").map Flight.price).get? 1 =
      some 110
    ∧ floorTo5 ((100 : ℚ) * (23 / 20)) = 115
    ∧ (110 : ℚ) ≠ 115 := by
  refine ⟨by with_unfolding_all decide, ?_, by norm_num⟩
  have h := floorTo5_natMul 100 23 20 (by norm_num)
  norm_num at h
  rw [show ((100 : ℚ) * (23 / 20)) = 115 by norm_num]
  exact h

/-- Claim C9: the flight-offers parser keeps exactly the offers with at
least one itinerary and a positive parsed price, converting each kept offer
with `mkFlight`; the conversion takes the outbound leg from the first
itinerary with stop count `max 0 (segments - 1)`, leaves every return-leg
field at its zero value when there is exactly one itinerary, and fills them
from the second itinerary when it exists. -/
theorem claim9_parse_policy (offers : List AmadeusFlightOffer) :
    parseFlightOffers offers =
      (offers.filter fun o =>
        !o.itineraries.isEmpty && decide (0 < parsePrice o.price.grandTotal)).map mkFlight
    ∧ (∀ o : AmadeusFlightOffer, ∀ it : AmadeusItinerary, o.itineraries = [it] →
        (mkFlight o).returnDepartureTime = "" ∧ (mkFlight o).returnArrivalTime = ""
        ∧ (mkFlight o).returnDuration = "" ∧ (mkFlight o).returnStops = 0)
    ∧ (∀ o : AmadeusFlightOffer, ∀ it1 it2 : AmadeusItinerary,
        ∀ rest : List AmadeusItinerary, o.itineraries = it1 :: it2 :: rest →
        (mkFlight o).duration = parseDuration it1.duration
        ∧ (mkFlight o).returnDuration = parseDuration it2.duration
        ∧ (mkFlight o).returnStops = max 0 ((it2.segments.length : ℤ) - 1))
    ∧ (∀ o : AmadeusFlightOffer, ∀ it : AmadeusItinerary,
        ∀ rest : List AmadeusItinerary, o.itineraries = it :: rest →
        (mkFlight o).stops = max 0 ((it.segments.length : ℤ) - 1)
        ∧ (mkFlight o).price = parsePrice o.price.grandTotal) := by
  refine ⟨?_, ?_, ?_, ?_⟩
  · induction offers with
    | nil => rfl
    | cons o rest ih =>
      rcases ho : o.itineraries with _ | ⟨it, its⟩
      · simp [parseFlightOffers, ho, ih]
      · by_cases hp : parsePrice o.price.grandTotal ≤ 0
        · have : ¬(0 < parsePrice o.price.grandTotal) := not_lt.2 hp
          simp [parseFlightOffers, ho, hp, ih, this]
        · have h0 : 0 < parsePrice o.price.grandTotal := lt_of_not_ge hp
          simp [parseFlightOffers, ho, hp, ih, h0]
  · intro o it h
    cases hseg : it.segments <;>
      simp [mkFlight, h, hseg]
  · intro o it1 it2 rest h
    cases hs1 : it1.segments <;> cases hs2 : it2.segments <;>
      simp [mkFlight, h, hs1, hs2]
  · intro o it rest h
    cases hs : it.segments <;> rcases rest with _ | ⟨it2, rest⟩ <;>
      first
        | (cases hs2 : it2.segments <;> simp [mkFlight, h, hs, hs2])
        | simp [mkFlight, h, hs]

/-- Claim C10: every orchestrated search outcome carries a non-empty flight
list and a non-empty hotel list (a live result is only kept when non-empty,
and both synthesizers always return at least one offer), so the
recommendation step's empty-input guard can never fire on an orchestrated
outcome. -/
theorem claim10_outcome_nonempty (cp : Bool) (ff : FetchResult Flight)
    (hf : FetchResult Hotel) (o d dd rd : String) (budget : ℚ) (numNights : ℤ) :
    (SearchHandler ⟨cp, ff, hf⟩ o d dd rd).flights ≠ []
    ∧ (SearchHandler ⟨cp, ff, hf⟩ o d dd rd).hotels ≠ []
    ∧ FallbackRecommendation budget (SearchHandler ⟨cp, ff, hf⟩ o d dd rd).flights
        (SearchHandler ⟨cp, ff, hf⟩ o d dd rd).hotels numNights ≠ unableMessage :=
  ⟨searchHandler_flights_ne_nil cp ff hf o d dd rd,
   searchHandler_hotels_ne_nil cp ff hf o d dd rd,
   fallbackRecommendation_ne_unable budget numNights
     (searchHandler_flights_ne_nil cp ff hf o d dd rd)
     (searchHandler_hotels_ne_nil cp ff hf o d dd rd)⟩

end TripMind
